import Mathlib

/-!
Shallow embedding of `src/backend/main.py` (gemini-wrapper), covering the
request-handling core: the prompt builder `create_educational_prompt`, the
ask-question handler (the decorated handler at lines 239-316 — the second,
undecorated `ask_question` at lines 319-372 shadows only the module name and
is never reachable through the route), and the two exception handlers.

Modelling conventions:
* The external Gemini response is the handler's oracle input: a list of
  candidates, each with an optional finish reason and an optional content
  object holding an optional list of parts, each with an optional text
  (mirroring the `getattr(..., None)` probes in the source).
* Python truthiness on strings/options (`request.topic or "geral"`,
  `if topic:`, `request.conversation_id or ...`, `if not text:`) is embedded
  as "is `none` or the empty string".
* Prometheus counters become a `Metrics` record threaded through the handler;
  `time.time()` and `datetime.now()` become an explicit `now : Nat` argument.
* `raise HTTPException(status_code, detail)` becomes `Except.error` of an
  `HTTPError` record carrying the same status code and detail string.
-/

set_option maxRecDepth 8000

namespace GW

/-- One content fragment of a candidate; `text` is `none` when the attribute
is missing or `None` (the source reads it with `getattr(p, "text", "")`). -/
structure Part where
  text : Option String
deriving DecidableEq

/-- The structured content object of a candidate, with its optional ordered
list of parts (the source reads it with `getattr(parts, "parts", None)`). -/
structure Content where
  parts : Option (List Part)
deriving DecidableEq

/-- One candidate completion returned by the external call. The finish
reason is abstracted as an optional string; the source only ever renders it
into an error message. -/
structure Candidate where
  finish_reason : Option String
  content : Option Content
deriving DecidableEq

/-- Result object of the external generation call; `candidates = []` covers
both an empty and an absent candidate list (both are falsy under the
source's `if not response.candidates`). -/
structure GenResponse where
  candidates : List Candidate
deriving DecidableEq

/-- Request body of `POST /api/ask` (`QuestionRequest` in the source). -/
structure QuestionRequest where
  question : String
  topic : Option String
  conversation_id : Option String
deriving DecidableEq

/-- Response body on success (`AnswerResponse` in the source); the
timestamp is the abstract clock value `now`. -/
structure AnswerResponse where
  answer : String
  topic : Option String
  timestamp : Nat
  conversation_id : String
deriving DecidableEq

/-- An `HTTPException` as raised by the handler: status code plus detail. -/
structure HTTPError where
  status_code : Nat
  detail : String
deriving DecidableEq

/-- Prometheus counters touched by the handler: `chat_messages_total`
(labelled by topic) and `chat_gemini_errors_total`. -/
structure Metrics where
  chat_messages : String → Nat
  gemini_errors : Nat

/-- Validation bound on the question field (`min_length=1, max_length=1000`
in the pydantic model). -/
def validQuestion (req : QuestionRequest) : Prop :=
  1 ≤ req.question.length ∧ req.question.length ≤ 1000

/-- Text contributed by one part: `getattr(p, "text", "") or ""` maps a
missing or `None` text to the empty string. -/
def partText (p : Part) : String :=
  match p.text with
  | none => ""
  | some s => s

/-- The fragment list of a candidate, empty when the content object or its
part list is missing. -/
def fragments (c : Candidate) : List Part :=
  match c.content with
  | none => []
  | some ct =>
    match ct.parts with
    | none => []
    | some ps => ps

/-- Text extraction of the handler (lines 276-283): the concatenation of the
part texts, computed only when the content object is present and its part
list is present and non-empty, otherwise the empty string. -/
def extractText (c : Candidate) : String :=
  match c.content with
  | none => ""
  | some ct =>
    match ct.parts with
    | none => ""
    | some ps => if ps = [] then "" else String.join (ps.map partText)

/-- Rendering of the finish reason inside the f-string
`f"Modelo não retornou texto (finish_reason={finish_reason})"`; Python
renders `None` as the string `None`. -/
def finishStr : Option String → String
  | none => "None"
  | some s => s

/-- Static instructional preamble of `create_educational_prompt`
(lines 378-387), including its trailing newline. -/
def BASE_PROMPT : String :=
  "Você é um assistente educacional especializado em Cloud Computing, DevOps e AWS.\n\nDIRETRIZES:\n1. Responda de forma didática e clara\n2. Use exemplos práticos quando possível\n3. Explique conceitos técnicos de forma acessível\n4. Se a pergunta for muito ampla, foque nos pontos principais\n5. Inclua boas práticas quando relevante\n6. Use formatação markdown para melhor legibilidade\n"

/-- Preamble plus the optional topic line: `if topic:` is Python truthiness,
so the line is added only when the topic is present and non-empty. -/
def promptHeader (topic : Option String) : String :=
  match topic with
  | none => BASE_PROMPT
  | some t => if t = "" then BASE_PROMPT else BASE_PROMPT ++ "\nTÓPICO ESPECÍFICO: " ++ t ++ "\n"

/-- The prompt builder `create_educational_prompt` (lines 374-394). -/
def create_educational_prompt (question : String) (topic : Option String) : String :=
  promptHeader topic ++ "\nPERGUNTA DO ESTUDANTE: " ++ question ++ "\n\nRESPOSTA:"

/-- Effective topic label for metrics, `request.topic or "geral"`
(line 246): the topic when present and non-empty, else `"geral"`. -/
def topicLabel (req : QuestionRequest) : String :=
  match req.topic with
  | none => "geral"
  | some t => if t = "" then "geral" else t

/-- Output conversation id,
`request.conversation_id or f"conv_{int(time.time())}"` (line 299): the
input id when present and non-empty, else a fresh `conv_` id from the
current time. -/
def convId (req : QuestionRequest) (now : Nat) : String :=
  match req.conversation_id with
  | none => "conv_" ++ toString now
  | some c => if c = "" then "conv_" ++ toString now else c

/-- The prompt the handler builds and sends to the external call
(line 249): it depends on the question and topic only. -/
def ask_prompt (req : QuestionRequest) : String :=
  create_educational_prompt req.question req.topic

/-- Increment of the labelled `chat_messages_total` counter. -/
def incChat (m : Metrics) (label : String) : Metrics :=
  { m with chat_messages := fun l => if l = label then m.chat_messages l + 1 else m.chat_messages l }

/-- Increment of the `chat_gemini_errors_total` counter. -/
def incErrors (m : Metrics) : Metrics :=
  { m with gemini_errors := m.gemini_errors + 1 }

/-- The decorated `ask_question` handler (lines 239-316), with the external
call's result passed in as `resp` and the clock as `now`. It increments the
chat counter at the effective topic label, then normalizes the response:
no candidates is a 500 error; a first candidate with no extractable text is
a 500 error carrying the finish reason; otherwise it succeeds with the
concatenated text, the echoed topic and the computed conversation id. -/
def ask_question (req : QuestionRequest) (resp : GenResponse) (now : Nat) (m : Metrics) :
    Except HTTPError AnswerResponse × Metrics :=
  let m1 := incChat m (topicLabel req)
  match resp.candidates with
  | [] =>
      (Except.error ⟨500, "Modelo não retornou nenhuma resposta"⟩, incErrors m1)
  | candidate :: _ =>
      let text := extractText candidate
      if text = "" then
        (Except.error
          ⟨500, "Modelo não retornou texto (finish_reason=" ++ finishStr candidate.finish_reason ++ ")"⟩,
         incErrors m1)
      else
        (Except.ok
          { answer := text
            topic := req.topic
            timestamp := now
            conversation_id := convId req now }, m1)

/-- The `HTTPException` handler (lines 408-416): echoes the exception's
status code and returns a JSON object with `error` and `timestamp` fields. -/
def http_exception_handler (exc : HTTPError) (ts : String) : Nat × List (String × String) :=
  (exc.status_code, [("error", exc.detail), ("timestamp", ts)])

/-- The catch-all exception handler (lines 418-428): a 500 response with
`error`, `detail` and `timestamp` fields. -/
def general_exception_handler (msg : String) (ts : String) : Nat × List (String × String) :=
  (500, [("error", "Erro interno do servidor"), ("detail", msg), ("timestamp", ts)])

/-- Substring containment, stated on the character lists of the strings. -/
def containsStr (s x : String) : Prop :=
  ∃ a b : List Char, s.data = a ++ x.data ++ b

/-- Occurrence of `x` before a later, non-overlapping occurrence of `y`
inside `s`, stated as an explicit decomposition. -/
def containsInOrder (x y s : String) : Prop :=
  ∃ a b c : List Char, s.data = a ++ x.data ++ b ++ y.data ++ c

/-- Suffix relation between strings, on their character lists. -/
def endsWithStr (s x : String) : Prop :=
  x.data <:+ s.data

/-- Executable occurrence check: does `x` occur as a contiguous block of
the list? -/
def occursIn (x : List Char) : List Char → Bool
  | [] => x.isEmpty
  | c :: rest => x.isPrefixOf (c :: rest) || occursIn x rest

/-- Executable ordered-occurrence check: does `x` occur, followed (after
the end of that occurrence) by an occurrence of `y`? -/
def orderedIn (x y : List Char) : List Char → Bool
  | [] => x.isPrefixOf [] && occursIn y []
  | c :: rest => (x.isPrefixOf (c :: rest) && occursIn y (List.drop x.length (c :: rest))) || orderedIn x y rest

/-! Helper lemmas -/

/-- A string is empty exactly when its character list is empty. -/
theorem eq_empty_iff_data (s : String) : s = "" ↔ s.data = [] := by
  constructor
  · intro h; rw [h]
  · intro h; apply String.ext; rw [h]

/-- Folding append over a list never shortens the accumulator. -/
theorem length_le_foldl_append (l : List String) :
    ∀ acc : String, acc.length ≤ (List.foldl (fun r s => r ++ s) acc l).length := by
  induction l with
  | nil => intro acc; exact Nat.le_refl _
  | cons h t ih =>
      intro acc
      calc acc.length ≤ (acc ++ h).length := by
            rw [String.length_append]; exact Nat.le_add_right _ _
        _ ≤ _ := ih (acc ++ h)

/-- Every member of the list bounds the length of the fold from below. -/
theorem mem_length_le_foldl_append (l : List String) :
    ∀ x ∈ l, ∀ acc : String, x.length ≤ (List.foldl (fun r s => r ++ s) acc l).length := by
  induction l with
  | nil => intro x hx; exact absurd hx (List.not_mem_nil x)
  | cons h t ih =>
      intro x hx acc
      rcases List.mem_cons.mp hx with hxh | hxt
      · subst hxh
        calc x.length ≤ (acc ++ x).length := by
              rw [String.length_append]; exact Nat.le_add_left _ _
          _ ≤ _ := length_le_foldl_append t (acc ++ x)
      · exact ih x hxt (acc ++ h)

/-- A join of strings one of which is non-empty is non-empty. -/
theorem join_ne_empty_of_mem (l : List String) (x : String) (hx : x ∈ l) (hne : x ≠ "") :
    String.join l ≠ "" := by
  intro hj
  have hxlen : 0 < x.length := by
    rcases Nat.eq_zero_or_pos x.length with h0 | hpos
    · exact absurd (String.ext (List.length_eq_zero.mp h0)) hne
    · exact hpos
  have hle := mem_length_le_foldl_append l x hx ""
  rw [show (List.foldl (fun r s => r ++ s) "" l) = String.join l from rfl, hj] at hle
  exact absurd (Nat.lt_of_lt_of_le hxlen hle) (by decide)

/-- A join of all-empty strings is empty. -/
theorem join_all_empty (l : List String) (h : ∀ x ∈ l, x = "") : String.join l = "" := by
  have key : ∀ (l : List String), (∀ x ∈ l, x = "") →
      ∀ acc : String, List.foldl (fun r s => r ++ s) acc l = acc := by
    intro l
    induction l with
    | nil => intro _ acc; rfl
    | cons hd t ih =>
        intro hall acc
        have hhd : hd = "" := hall hd (List.mem_cons_self hd t)
        show List.foldl (fun r s => r ++ s) (acc ++ hd) t = acc
        rw [hhd, String.append_empty]
        exact ih (fun x hx => hall x (List.mem_cons_of_mem hd hx)) acc
  exact key l h ""

/-- The extracted text is always the ordered concatenation of the part
texts of the candidate's fragment list. -/
theorem extractText_eq_join (c : Candidate) :
    extractText c = String.join ((fragments c).map partText) := by
  obtain ⟨fr, content⟩ := c
  cases content with
  | none => rfl
  | some ct =>
      obtain ⟨parts⟩ := ct
      cases parts with
      | none => rfl
      | some ps =>
          by_cases hps : ps = []
          · subst hps; rfl
          · simp [extractText, fragments, hps]

/-- When some fragment carries non-empty text, the extracted text is
non-empty. -/
theorem extractText_ne_empty (c : Candidate) (p : Part) (hp : p ∈ fragments c)
    (hne : partText p ≠ "") : extractText c ≠ "" := by
  rw [extractText_eq_join]
  exact join_ne_empty_of_mem _ (partText p) (List.mem_map_of_mem partText hp) hne

/-- When every fragment text is empty, the extracted text is empty. -/
theorem extractText_empty (c : Candidate) (h : ∀ p ∈ fragments c, partText p = "") :
    extractText c = "" := by
  rw [extractText_eq_join]
  exact join_all_empty _ (by intro x hx; rcases List.mem_map.mp hx with ⟨p, hp, rfl⟩; exact h p hp)

/-- The empty block occurs in every list. -/
theorem occursIn_nil (l : List Char) : occursIn [] l = true := by
  cases l with
  | nil => rfl
  | cons c rest => rw [occursIn]; rfl

/-- A list occurs at the head of itself followed by anything. -/
theorem occursIn_append_self (y c : List Char) : occursIn y (y ++ c) = true := by
  cases y with
  | nil => exact occursIn_nil _
  | cons d ys =>
      rw [List.cons_append, occursIn]
      have h : (d :: ys).isPrefixOf (d :: (ys ++ c)) = true := by
        rw [← List.cons_append]
        exact List.isPrefixOf_iff_prefix.mpr (List.prefix_append _ _)
      rw [h, Bool.true_or]

/-- Occurrence is stable under consing an element in front. -/
theorem occursIn_cons (y : List Char) (d : Char) (l : List Char)
    (h : occursIn y l = true) : occursIn y (d :: l) = true := by
  rw [occursIn, h, Bool.or_true]

/-- Occurrence is stable under prepending a list. -/
theorem occursIn_append_left (b y l : List Char) (h : occursIn y l = true) :
    occursIn y (b ++ l) = true := by
  induction b with
  | nil => simpa using h
  | cons d b' ih => rw [List.cons_append]; exact occursIn_cons _ _ _ ih

/-- The ordered-occurrence check succeeds when the first block sits at the
head and the second occurs after it. -/
theorem orderedIn_head (x y s : List Char) (h1 : x.isPrefixOf s = true)
    (h2 : occursIn y (List.drop x.length s) = true) : orderedIn x y s = true := by
  cases s with
  | nil =>
      rw [orderedIn, h1, Bool.true_and]
      rw [List.drop_nil] at h2
      exact h2
  | cons c rest => rw [orderedIn, h1, Bool.true_and, h2, Bool.true_or]

/-- The ordered-occurrence check is stable under consing in front. -/
theorem orderedIn_cons (x y : List Char) (d : Char) (s : List Char)
    (h : orderedIn x y s = true) : orderedIn x y (d :: s) = true := by
  rw [orderedIn, h, Bool.or_true]

/-- Any explicit decomposition witnesses the ordered-occurrence check. -/
theorem orderedIn_decomp (a x b y c : List Char) :
    orderedIn x y (a ++ (x ++ (b ++ (y ++ c)))) = true := by
  induction a with
  | nil =>
      simp only [List.nil_append]
      apply orderedIn_head
      · exact List.isPrefixOf_iff_prefix.mpr (List.prefix_append _ _)
      · rw [List.drop_left]
        exact occursIn_append_left b y (y ++ c) (occursIn_append_self y c)
  | cons d a' ih => rw [List.cons_append]; exact orderedIn_cons _ _ _ _ ih

/-- The propositional ordered-containment implies the executable check, so
a `false` evaluation of the check refutes the proposition. -/
theorem containsInOrder_orderedIn (x y s : String) (h : containsInOrder x y s) :
    orderedIn x.data y.data s.data = true := by
  obtain ⟨a, b, c, hd⟩ := h
  rw [hd]
  simpa [List.append_assoc] using orderedIn_decomp a x.data b y.data c

/-! Claim theorems -/

/-- C2: whenever the external-call result has an empty (or absent) candidate
list, `ask_question` fails with the 500 NoCandidates error — detail
"Modelo não retornou nenhuma resposta", Portuguese for "model returned no
response" — and the generation-error counter is incremented by exactly 1. -/
theorem ask_question_no_candidates (req : QuestionRequest) (resp : GenResponse)
    (now : Nat) (m : Metrics) (h : resp.candidates = []) :
    (ask_question req resp now m).fst =
      Except.error ⟨500, "Modelo não retornou nenhuma resposta"⟩ ∧
    ((ask_question req resp now m).snd).gemini_errors = m.gemini_errors + 1 := by
  simp [ask_question, h, incErrors, incChat]

/-- Witness for C2 at a concrete request with an empty candidate list. -/
theorem ask_question_no_candidates_witness :
    (ask_question ⟨"X", none, none⟩ ⟨[]⟩ 0 ⟨fun _ => 0, 0⟩).fst =
      Except.error ⟨500, "Modelo não retornou nenhuma resposta"⟩ ∧
    ((ask_question ⟨"X", none, none⟩ ⟨[]⟩ 0 ⟨fun _ => 0, 0⟩).snd).gemini_errors = 0 + 1 :=
  ask_question_no_candidates ⟨"X", none, none⟩ ⟨[]⟩ 0 ⟨fun _ => 0, 0⟩ rfl

/-- C3: whenever the first candidate's content fragments are all empty or
missing, `ask_question` fails with the 500 EmptyGeneration error whose
detail carries the candidate's finish reason, and the generation-error
counter is incremented by exactly 1. -/
theorem ask_question_empty_generation (req : QuestionRequest) (resp : GenResponse)
    (now : Nat) (m : Metrics) (c : Candidate) (rest : List Candidate)
    (h : resp.candidates = c :: rest) (hall : ∀ p ∈ fragments c, partText p = "") :
    (ask_question req resp now m).fst =
      Except.error
        ⟨500, "Modelo não retornou texto (finish_reason=" ++ finishStr c.finish_reason ++ ")"⟩ ∧
    ((ask_question req resp now m).snd).gemini_errors = m.gemini_errors + 1 := by
  have hx : extractText c = "" := extractText_empty c hall
  simp [ask_question, h, hx, incErrors, incChat]

/-- Witness for C3 at a candidate whose two fragments are a missing text
and an empty text, with finish reason SAFETY. -/
theorem ask_question_empty_generation_witness :
    (ask_question ⟨"X", none, none⟩
        ⟨[⟨some "SAFETY", some ⟨some [⟨none⟩, ⟨some ""⟩]⟩⟩]⟩ 0 ⟨fun _ => 0, 0⟩).fst =
      Except.error ⟨500, "Modelo não retornou texto (finish_reason=SAFETY)"⟩ ∧
    ((ask_question ⟨"X", none, none⟩
        ⟨[⟨some "SAFETY", some ⟨some [⟨none⟩, ⟨some ""⟩]⟩⟩]⟩ 0 ⟨fun _ => 0, 0⟩).snd).gemini_errors
      = 0 + 1 :=
  ask_question_empty_generation ⟨"X", none, none⟩
    ⟨[⟨some "SAFETY", some ⟨some [⟨none⟩, ⟨some ""⟩]⟩⟩]⟩ 0 ⟨fun _ => 0, 0⟩
    ⟨some "SAFETY", some ⟨some [⟨none⟩, ⟨some ""⟩]⟩⟩ [] rfl (by decide)

/-- C1 (amended): whenever the FIRST candidate's content fragments include
at least one non-empty text fragment, `ask_question` succeeds, the answer
is the ordered concatenation of all the first candidate's fragment texts
(missing or empty fragments contributing the empty string), the topic is
echoed, the conversation id is computed by `convId`, and the
generation-error counter is not incremented. -/
theorem ask_question_first_candidate_success (req : QuestionRequest) (resp : GenResponse)
    (now : Nat) (m : Metrics) (c : Candidate) (rest : List Candidate)
    (h : resp.candidates = c :: rest) (p : Part) (hp : p ∈ fragments c)
    (hpt : partText p ≠ "") :
    (ask_question req resp now m).fst =
      Except.ok
        { answer := String.join ((fragments c).map partText)
          topic := req.topic
          timestamp := now
          conversation_id := convId req now } ∧
    ((ask_question req resp now m).snd).gemini_errors = m.gemini_errors := by
  have hx : extractText c ≠ "" := extractText_ne_empty c p hp hpt
  simp only [ask_question, h]
  rw [if_neg hx]
  exact ⟨by rw [extractText_eq_join], rfl⟩

/-- Witness for C1 at the spec's scenario: the two fragments
"Docker is " and "a container platform." concatenate, the topic is echoed,
and the auto-generated conversation id is non-empty. -/
theorem ask_question_first_candidate_success_witness :
    (ask_question ⟨"What is Docker?", some "Docker e Containerização", none⟩
        ⟨[⟨none, some ⟨some [⟨some "Docker is "⟩, ⟨some "a container platform."⟩]⟩⟩]⟩
        1700000000 ⟨fun _ => 0, 7⟩).fst =
      Except.ok
        { answer := "Docker is a container platform."
          topic := some "Docker e Containerização"
          timestamp := 1700000000
          conversation_id := "conv_1700000000" } ∧
    ((ask_question ⟨"What is Docker?", some "Docker e Containerização", none⟩
        ⟨[⟨none, some ⟨some [⟨some "Docker is "⟩, ⟨some "a container platform."⟩]⟩⟩]⟩
        1700000000 ⟨fun _ => 0, 7⟩).snd).gemini_errors = 7 :=
  ask_question_first_candidate_success
    ⟨"What is Docker?", some "Docker e Containerização", none⟩
    ⟨[⟨none, some ⟨some [⟨some "Docker is "⟩, ⟨some "a container platform."⟩]⟩⟩]⟩
    1700000000 ⟨fun _ => 0, 7⟩
    ⟨none, some ⟨some [⟨some "Docker is "⟩, ⟨some "a container platform."⟩]⟩⟩ [] rfl
    ⟨some "Docker is "⟩ (by decide) (by decide)

/-- Counterexample to C1 as stated: a result whose SECOND candidate has a
non-empty text fragment (so the result does contain such a candidate) but
whose first candidate has none; the handler fails with a 500 and increments
the error counter instead of succeeding. -/
theorem ask_question_any_candidate_claim_false :
    (∃ c ∈ (GenResponse.mk
        [⟨none, some ⟨some [⟨none⟩]⟩⟩, ⟨none, some ⟨some [⟨some "hi"⟩]⟩⟩]).candidates,
        ∃ p ∈ fragments c, partText p ≠ "") ∧
    (ask_question ⟨"q", none, none⟩
        ⟨[⟨none, some ⟨some [⟨none⟩]⟩⟩, ⟨none, some ⟨some [⟨some "hi"⟩]⟩⟩]⟩
        0 ⟨fun _ => 0, 0⟩).fst =
      Except.error ⟨500, "Modelo não retornou texto (finish_reason=None)"⟩ ∧
    ((ask_question ⟨"q", none, none⟩
        ⟨[⟨none, some ⟨some [⟨none⟩]⟩⟩, ⟨none, some ⟨some [⟨some "hi"⟩]⟩⟩]⟩
        0 ⟨fun _ => 0, 0⟩).snd).gemini_errors = 1 :=
  ⟨by decide, rfl, rfl⟩

/-- C4: a successful answer always has non-empty text; an empty extracted
text is converted to a failure, never surfaced as a success. -/
theorem ask_question_success_nonempty (req : QuestionRequest) (resp : GenResponse)
    (now : Nat) (m : Metrics) (a : AnswerResponse)
    (h : (ask_question req resp now m).fst = Except.ok a) : a.answer ≠ "" := by
  rcases hr : resp.candidates with _ | ⟨c, rest⟩
  · simp only [ask_question, hr] at h
    exact Except.noConfusion h
  · simp only [ask_question, hr] at h
    by_cases hx : extractText c = ""
    · rw [if_pos hx] at h
      simp at h
    · rw [if_neg hx] at h
      injection h with h2
      rw [← h2]
      exact hx

/-- Witness for C4 at a concrete successful call. -/
theorem ask_question_success_nonempty_witness :
    ({ answer := "hi", topic := none, timestamp := 0,
       conversation_id := "conv_0" } : AnswerResponse).answer ≠ "" :=
  ask_question_success_nonempty ⟨"q", none, none⟩
    ⟨[⟨none, some ⟨some [⟨some "hi"⟩]⟩⟩]⟩ 0 ⟨fun _ => 0, 0⟩
    ⟨"hi", none, 0, "conv_0"⟩ rfl

/-- Successful handler results come from a non-empty candidate list with a
non-empty extracted text, and carry exactly the extracted text, the echoed
topic, the clock and the computed conversation id. -/
theorem ask_question_ok_shape (req : QuestionRequest) (resp : GenResponse)
    (now : Nat) (m : Metrics) (a : AnswerResponse)
    (h : (ask_question req resp now m).fst = Except.ok a) :
    ∃ c rest, resp.candidates = c :: rest ∧ extractText c ≠ "" ∧
      a = ⟨extractText c, req.topic, now, convId req now⟩ := by
  rcases hr : resp.candidates with _ | ⟨c, rest⟩
  · simp only [ask_question, hr] at h
    exact Except.noConfusion h
  · simp only [ask_question, hr] at h
    by_cases hx : extractText c = ""
    · rw [if_pos hx] at h
      exact Except.noConfusion h
    · rw [if_neg hx] at h
      injection h with h2
      exact ⟨c, rest, rfl, hx, h2.symm⟩

/-- Every error the handler produces carries status code 500. -/
theorem ask_question_error_shape (req : QuestionRequest) (resp : GenResponse)
    (now : Nat) (m : Metrics) (e : HTTPError)
    (h : (ask_question req resp now m).fst = Except.error e) : e.status_code = 500 := by
  rcases hr : resp.candidates with _ | ⟨c, rest⟩
  · simp only [ask_question, hr] at h
    injection h with h2
    rw [← h2]
  · simp only [ask_question, hr] at h
    by_cases hx : extractText c = ""
    · rw [if_pos hx] at h
      injection h with h2
      rw [← h2]
    · rw [if_neg hx] at h
      exact Except.noConfusion h

/-- A string starting with the `conv_` prefix is never empty. -/
theorem conv_prefix_ne_empty (s : String) : ("conv_" ++ s) ≠ "" := by
  intro h
  have hd := congrArg String.data h
  rw [String.data_append] at hd
  simp at hd

/-- The computed conversation id is never empty. -/
theorem convId_ne_empty (req : QuestionRequest) (now : Nat) : convId req now ≠ "" := by
  unfold convId
  cases hc : req.conversation_id with
  | none => exact conv_prefix_ne_empty _
  | some c =>
      show (if c = "" then "conv_" ++ toString now else c) ≠ ""
      by_cases hce : c = ""
      · rw [if_pos hce]; exact conv_prefix_ne_empty _
      · rw [if_neg hce]; exact hce

/-- C10: the prompt built with an empty-string topic is identical to the
prompt built with an absent topic — the topic line is omitted whenever the
topic is empty, not only when it is absent. -/
theorem prompt_empty_topic_eq_none (q : String) :
    create_educational_prompt q (some "") = create_educational_prompt q none := rfl

/-- C5 (amended): for every question and optional topic, the prompt ends
with the exact character sequence
"PERGUNTA DO ESTUDANTE: {question}\n\nRESPOSTA:" — the source's Portuguese
question line and answer marker, not the English "QUESTION:/ANSWER:" of the
claim as stated. -/
theorem prompt_ends_with_question_marker (q : String) (t : Option String) :
    endsWithStr (create_educational_prompt q t)
      ("PERGUNTA DO ESTUDANTE: " ++ q ++ "\n\nRESPOSTA:") := by
  show ("PERGUNTA DO ESTUDANTE: " ++ q ++ "\n\nRESPOSTA:").data <:+
    (create_educational_prompt q t).data
  refine ⟨(promptHeader t).data ++ ['\n'], ?_⟩
  have hsplit : ("\nPERGUNTA DO ESTUDANTE: " : String).data
      = '\n' :: ("PERGUNTA DO ESTUDANTE: " : String).data := rfl
  simp only [create_educational_prompt, String.data_append, hsplit]
  simp [List.append_assoc]

/-- Counterexample to C5 as stated: the prompt for question "X" does not
end with the English marker sequence "QUESTION: X\n\nANSWER:". -/
theorem prompt_english_marker_claim_false :
    ¬ endsWithStr (create_educational_prompt "X" none) ("QUESTION: X\n\nANSWER:") := by
  unfold endsWithStr
  decide

/-- C6 (amended): the prompt builder is deterministic, its output contains
the literal question text, the prompt depends only on the question and
topic, and when a topic is given the literal topic text appears BEFORE the
question text (the source emits the topic line first, not the question
first as the claim states). -/
theorem prompt_contains_topic_before_question (q : String) (t : Option String) :
    containsStr (create_educational_prompt q t) q ∧
    (∀ q2 t2, q2 = q → t2 = t →
      create_educational_prompt q2 t2 = create_educational_prompt q t) ∧
    (∀ tp, t = some tp → containsInOrder tp q (create_educational_prompt q t)) := by
  refine ⟨?_, ?_, ?_⟩
  · refine ⟨(promptHeader t).data ++ ("\nPERGUNTA DO ESTUDANTE: " : String).data,
      ("\n\nRESPOSTA:" : String).data, ?_⟩
    simp [create_educational_prompt, String.data_append, List.append_assoc]
  · intro q2 t2 h1 h2; rw [h1, h2]
  · intro tp ht
    subst ht
    by_cases htp : tp = ""
    · refine ⟨[], (promptHeader (some tp)).data ++ ("\nPERGUNTA DO ESTUDANTE: " : String).data,
        ("\n\nRESPOSTA:" : String).data, ?_⟩
      subst htp
      simp [create_educational_prompt, String.data_append, List.append_assoc]
    · refine ⟨BASE_PROMPT.data ++ ("\nTÓPICO ESPECÍFICO: " : String).data,
        ("\n" : String).data ++ ("\nPERGUNTA DO ESTUDANTE: " : String).data,
        ("\n\nRESPOSTA:" : String).data, ?_⟩
      simp [create_educational_prompt, promptHeader, htp, String.data_append,
        List.append_assoc]

/-- Witness for C6 at a concrete question and topic. -/
theorem prompt_contains_topic_before_question_witness :
    containsStr (create_educational_prompt "What is EC2?" (some "aws")) "What is EC2?" ∧
    containsInOrder "aws" "What is EC2?"
      (create_educational_prompt "What is EC2?" (some "aws")) := by
  have h := prompt_contains_topic_before_question "What is EC2?" (some "aws")
  exact ⟨h.1, h.2.2 "aws" rfl⟩

/-- Counterexample to C6 as stated: with question "Q" and topic "ZZZ" the
prompt does not contain the question before the topic — the topic line
comes first. -/
theorem prompt_question_before_topic_claim_false :
    ¬ containsInOrder "Q" "ZZZ" (create_educational_prompt "Q" (some "ZZZ")) := by
  intro h
  exact absurd (containsInOrder_orderedIn _ _ _ h) (by decide)

/-- C7 (amended): on success the output conversation id equals the input
conversation id when it is provided AND non-empty; when it is absent OR the
empty string the output id is the fixed prefix `conv_` followed by the
numeric time, and it is always non-empty. (The claim as stated omits the
empty-string case: Python truthiness regenerates the id then too.) -/
theorem conversation_id_policy (req : QuestionRequest) (resp : GenResponse)
    (now : Nat) (m : Metrics) (a : AnswerResponse)
    (h : (ask_question req resp now m).fst = Except.ok a) :
    (∀ cid, req.conversation_id = some cid → cid ≠ "" → a.conversation_id = cid) ∧
    ((req.conversation_id = none ∨ req.conversation_id = some "") →
      a.conversation_id = "conv_" ++ toString now) ∧
    a.conversation_id ≠ "" := by
  obtain ⟨c, rest, hr, hx, ha⟩ := ask_question_ok_shape req resp now m a h
  have hcid : a.conversation_id = convId req now := by rw [ha]
  refine ⟨?_, ?_, ?_⟩
  · intro cid hc hne
    rw [hcid]
    unfold convId
    rw [hc]
    show (if cid = "" then "conv_" ++ toString now else cid) = cid
    rw [if_neg hne]
  · intro hor
    rw [hcid]
    unfold convId
    rcases hor with hn | hs
    · rw [hn]
    · rw [hs]
      show (if "" = "" then "conv_" ++ toString now else "") = "conv_" ++ toString now
      rw [if_pos rfl]
  · rw [hcid]
    exact convId_ne_empty req now

/-- Witness for C7 at a successful call with a provided non-empty
conversation id, which is echoed, and shown non-empty. -/
theorem conversation_id_policy_witness :
    ({ answer := "hi", topic := none, timestamp := 42,
       conversation_id := "abc123" } : AnswerResponse).conversation_id = "abc123" ∧
    ({ answer := "hi", topic := none, timestamp := 42,
       conversation_id := "abc123" } : AnswerResponse).conversation_id ≠ "" := by
  have h := conversation_id_policy ⟨"q", none, some "abc123"⟩
    ⟨[⟨none, some ⟨some [⟨some "hi"⟩]⟩⟩]⟩ 42 ⟨fun _ => 0, 0⟩
    ⟨"hi", none, 42, "abc123"⟩ rfl
  exact ⟨h.1 "abc123" rfl (by decide), h.2.2⟩

/-- Counterexample to C7 as stated: a request that PROVIDES the
conversation id `""` still gets a freshly generated `conv_0`, so the output
does not equal the provided input value. -/
theorem conversation_id_empty_echo_claim_false :
    (⟨"q", none, some ""⟩ : QuestionRequest).conversation_id = some "" ∧
    (ask_question ⟨"q", none, some ""⟩ ⟨[⟨none, some ⟨some [⟨some "hi"⟩]⟩⟩]⟩
      0 ⟨fun _ => 0, 0⟩).fst =
      Except.ok ⟨"hi", none, 0, "conv_0"⟩ ∧
    ("conv_0" : String) ≠ "" :=
  ⟨rfl, rfl, by decide⟩

/-- C8 (amended): every failure the handler raises carries status 500; the
`HTTPException` boundary handler echoes that status and returns a non-empty
JSON body with `error` and `timestamp` fields but NO `detail` field (the
claim as stated wrongly promises `detail`); only the catch-all handler for
unhandled exceptions returns `error`, `detail` and `timestamp`. -/
theorem error_body_fields (req : QuestionRequest) (resp : GenResponse) (now : Nat)
    (m : Metrics) (e : HTTPError) (ts msg : String) :
    ((ask_question req resp now m).fst = Except.error e → e.status_code = 500) ∧
    (http_exception_handler e ts).fst = e.status_code ∧
    ((http_exception_handler e ts).snd).lookup "error" = some e.detail ∧
    ((http_exception_handler e ts).snd).lookup "timestamp" = some ts ∧
    ((http_exception_handler e ts).snd).lookup "detail" = none ∧
    (http_exception_handler e ts).snd ≠ [] ∧
    ((general_exception_handler msg ts).snd).lookup "error" = some "Erro interno do servidor" ∧
    ((general_exception_handler msg ts).snd).lookup "detail" = some msg ∧
    ((general_exception_handler msg ts).snd).lookup "timestamp" = some ts := by
  refine ⟨ask_question_error_shape req resp now m e, rfl, rfl, rfl, rfl, ?_, rfl, rfl, rfl⟩
  intro hnil
  exact List.noConfusion hnil

/-- Witness for C8 at the concrete no-candidates failure. -/
theorem error_body_fields_witness :
    (⟨500, "Modelo não retornou nenhuma resposta"⟩ : HTTPError).status_code = 500 ∧
    ((http_exception_handler ⟨500, "Modelo não retornou nenhuma resposta"⟩
        "2026-10-12T00:00:00").snd).lookup "detail" = none ∧
    ((general_exception_handler "boom" "2026-10-12T00:00:00").snd).lookup "detail"
      = some "boom" := by
  have h := error_body_fields ⟨"X", none, none⟩ ⟨[]⟩ 0 ⟨fun _ => 0, 0⟩
    ⟨500, "Modelo não retornou nenhuma resposta"⟩ "2026-10-12T00:00:00" "boom"
  exact ⟨h.1 rfl, h.2.2.2.2.1, h.2.2.2.2.2.2.2.1⟩

/-- Counterexample to C8 as stated: a real failing call (empty candidate
list) produces a 500 whose boundary JSON body has no `detail` field. -/
theorem error_body_detail_claim_false :
    (ask_question ⟨"X", none, none⟩ ⟨[]⟩ 0 ⟨fun _ => 0, 0⟩).fst =
      Except.error ⟨500, "Modelo não retornou nenhuma resposta"⟩ ∧
    ((http_exception_handler ⟨500, "Modelo não retornou nenhuma resposta"⟩
        "2026-10-12T00:00:00").snd).lookup "detail" = none :=
  ⟨rfl, rfl⟩

/-- C9 (amended): the effective topic label for the chat-message counter is
the given topic when present and non-empty, and the fixed default label
"geral" (not "general" as the claim states) when absent or empty; the
handler increments the labelled counter exactly at that label, and the
prompt built depends only on the question and topic, not on the label. -/
theorem topic_label_policy (req : QuestionRequest) (resp : GenResponse)
    (now : Nat) (m : Metrics) :
    (req.topic = none → topicLabel req = "geral") ∧
    (req.topic = some "" → topicLabel req = "geral") ∧
    (∀ t, req.topic = some t → t ≠ "" → topicLabel req = t) ∧
    (∀ l, ((ask_question req resp now m).snd).chat_messages l =
      if l = topicLabel req then m.chat_messages l + 1 else m.chat_messages l) ∧
    (∀ req2 : QuestionRequest, req2.question = req.question → req2.topic = req.topic →
      ask_prompt req2 = ask_prompt req) := by
  refine ⟨?_, ?_, ?_, ?_, ?_⟩
  · intro h; simp [topicLabel, h]
  · intro h; simp [topicLabel, h]
  · intro t ht hne; simp [topicLabel, ht, hne]
  · intro l
    rcases hr : resp.candidates with _ | ⟨c, rest⟩
    · simp [ask_question, hr, incErrors, incChat]
    · simp only [ask_question, hr]
      by_cases hx : extractText c = ""
      · rw [if_pos hx]; simp [incErrors, incChat]
      · rw [if_neg hx]; simp [incChat]
  · intro req2 h1 h2; simp [ask_prompt, h1, h2]

/-- Witness for C9: an absent topic yields the label "geral" and the
counter at that label is incremented. -/
theorem topic_label_policy_witness :
    topicLabel ⟨"q", none, none⟩ = "geral" ∧
    ((ask_question ⟨"q", none, none⟩ ⟨[]⟩ 0 ⟨fun _ => 0, 0⟩).snd).chat_messages "geral"
      = 1 := by
  have h := topic_label_policy ⟨"q", none, none⟩ ⟨[]⟩ 0 ⟨fun _ => 0, 0⟩
  refine ⟨h.1 rfl, ?_⟩
  have h2 := h.2.2.2.1 "geral"
  simpa [h.1 rfl] using h2

/-- Counterexample to C9 as stated: with the topic absent the label is
"geral", not "general" — the counter at "general" stays 0 while the one at
"geral" is incremented. -/
theorem topic_label_general_claim_false :
    topicLabel ⟨"q", none, none⟩ = "geral" ∧
    ("geral" : String) ≠ "general" ∧
    ((ask_question ⟨"q", none, none⟩ ⟨[]⟩ 0 ⟨fun _ => 0, 0⟩).snd).chat_messages "general"
      = 0 ∧
    ((ask_question ⟨"q", none, none⟩ ⟨[]⟩ 0 ⟨fun _ => 0, 0⟩).snd).chat_messages "geral"
      = 1 :=
  ⟨rfl, by decide, rfl, rfl⟩

end GW
